import Mathlib

/-!
Verification development for a repository holding two components:

* `cloudstore` — an `Endpoint` configuration record with kind helpers
  (`IsS3`, `IsSFTP`, `Validate`, `Subfolder`, `URI`, `Properties`).
* `broker` — a journal resolver for a replicated streaming-storage cluster.
  Only the resolver's tests appear among the sources, so the resolver itself
  is modelled from the specification document (each such definition is marked
  `Modelled from the spec:` in its doc comment).

Go `panic` branches are rendered as `Option.none` results; Go `error` values
are rendered as `Option String` (the message) or as an explicit error type.

Definitions come first; the theorems about them follow at the end of the
file.
-/

namespace Cloudstore

/-- The `Endpoint` struct of `common.go`: AWS/S3 fields and SFTP fields,
all strings (zero value is the empty string). -/
structure Endpoint where
  AWSAccessKeyID : String
  AWSSecretAccessKey : String
  S3GlobalCannedACL : String
  S3Region : String
  S3Bucket : String
  S3Subfolder : String
  SFTPHostname : String
  SFTPPort : String
  SFTPUsername : String
  SFTPPassword : String
  SFTPDirectory : String
  deriving DecidableEq, Repr

/-- Helper `IsS3` of `common.go`: whether the config describes an S3
endpoint, i.e. `ep.AWSAccessKeyID != ""`. -/
def Endpoint.IsS3 (ep : Endpoint) : Bool :=
  decide (ep.AWSAccessKeyID ≠ "")

/-- Helper `IsSFTP` of `common.go`: whether the config describes an SFTP
endpoint, i.e. `ep.SFTPHostname != ""`. -/
def Endpoint.IsSFTP (ep : Endpoint) : Bool :=
  decide (ep.SFTPHostname ≠ "")

/-- Body of the SFTP branch of `Validate` (inlined in the Go source):
checks `SFTPPort`, `SFTPUsername`, `SFTPPassword`, `SFTPDirectory`. -/
def Endpoint.validateSFTPFields (ep : Endpoint) : Option String :=
  if ep.SFTPPort = "" then some "must specify sftp port"
  else if ep.SFTPUsername = "" then some "must specify sftp username"
  else if ep.SFTPPassword = "" then some "must specify sftp password"
  else if ep.SFTPDirectory = "" then some "must specify sftp directory"
  else none

/-- Body of the S3 branch of `Validate` (inlined in the Go source):
checks `AWSSecretAccessKey` and `S3Bucket`. -/
def Endpoint.validateS3Fields (ep : Endpoint) : Option String :=
  if ep.AWSSecretAccessKey = "" then some "must specify aws secret access key"
  else if ep.S3Bucket = "" then some "must specify s3 bucket"
  else none

/-- Method `Validate` of `common.go`: tries the SFTP branch first, then the
S3 branch; returns `none` (nil error) otherwise. -/
def Endpoint.Validate (ep : Endpoint) : Option String :=
  if ep.IsSFTP then ep.validateSFTPFields
  else if ep.IsS3 then ep.validateS3Fields
  else none

/-- Method `Subfolder` of `common.go`: S3 branch first, then SFTP; the final
`panic("unable to determine subfolder")` is rendered as `none`. -/
def Endpoint.Subfolder (ep : Endpoint) : Option String :=
  if ep.IsS3 then some ep.S3Subfolder
  else if ep.IsSFTP then some ep.SFTPDirectory
  else none

/-- Method `URI` of `common.go`: S3 branch first, then SFTP; the final
`panic("endpoint type not supported")` is rendered as `none`. -/
def Endpoint.URI (ep : Endpoint) : Option String :=
  if ep.IsS3 then some ("s3://" ++ ep.S3Bucket ++ "/" ++ ep.S3Subfolder)
  else if ep.IsSFTP then some ("sftp://" ++ ep.SFTPHostname ++ "/" ++ ep.SFTPDirectory)
  else none

/-- Keys of the `mapProperties` literals built by `Properties`. In the Go
package these are string constants declared outside `common.go`; they are
modelled as an opaque enumeration of distinct keys. -/
inductive PropKey where
  | AWSAccessKeyID
  | AWSSecretAccessKey
  | S3GlobalCannedACL
  | S3Region
  | SFTPUsername
  | SFTPPassword
  | SFTPKeyPath
  | SFTPPort
  deriving DecidableEq, Repr

/-- The S3 `mapProperties` literal built by `Properties`. -/
def Endpoint.s3Properties (ep : Endpoint) : List (PropKey × String) :=
  [(PropKey.AWSAccessKeyID, ep.AWSAccessKeyID),
   (PropKey.AWSSecretAccessKey, ep.AWSSecretAccessKey),
   (PropKey.S3GlobalCannedACL, ep.S3GlobalCannedACL),
   (PropKey.S3Region, ep.S3Region)]

/-- The SFTP `mapProperties` literal built by `Properties` (with the caller's
`keyPath` attached under `SFTPKeyPath`). -/
def Endpoint.sftpProperties (ep : Endpoint) (keyPath : String) : List (PropKey × String) :=
  [(PropKey.SFTPUsername, ep.SFTPUsername),
   (PropKey.SFTPPassword, ep.SFTPPassword),
   (PropKey.SFTPKeyPath, keyPath),
   (PropKey.SFTPPort, ep.SFTPPort)]

/-- Method `Properties` of `common.go`: S3 branch first, then SFTP; the
final `panic("endpoint type not supported")` is rendered as `none`. -/
def Endpoint.Properties (ep : Endpoint) (keyPath : String) : Option (List (PropKey × String)) :=
  if ep.IsS3 then some ep.s3Properties
  else if ep.IsSFTP then some (ep.sftpProperties keyPath)
  else none

/-- A concrete endpoint with both the S3 and the SFTP discriminant populated
(and every other field empty). -/
def epBothKinds : Endpoint :=
  { AWSAccessKeyID := "AKID", AWSSecretAccessKey := "secret",
    S3GlobalCannedACL := "", S3Region := "", S3Bucket := "bucket",
    S3Subfolder := "folder", SFTPHostname := "host", SFTPPort := "",
    SFTPUsername := "", SFTPPassword := "", SFTPDirectory := "" }

/-- A concrete endpoint with every field empty: neither S3 nor SFTP. -/
def epNoKind : Endpoint :=
  { AWSAccessKeyID := "", AWSSecretAccessKey := "",
    S3GlobalCannedACL := "", S3Region := "", S3Bucket := "",
    S3Subfolder := "", SFTPHostname := "", SFTPPort := "",
    SFTPUsername := "", SFTPPassword := "", SFTPDirectory := "" }

end Cloudstore

namespace Broker

/-- Modelled from the spec: `ProcessID` is a pair (zone, suffix) uniquely
naming a broker process (`ProcessSpec_ID` on the wire). -/
structure ProcessID where
  zone : String
  suffix : String
  deriving DecidableEq, Repr

/-- The zero-valued `ProcessID` (`pb.ProcessSpec_ID\x7b\x7d`). -/
def ProcessID.zero : ProcessID := { zone := "", suffix := "" }

/-- Modelled from the spec: the sentinel `ProcessID` substituted when this
broker's own `BrokerSpec` key is absent from the coordination store. -/
def sentinelID : ProcessID := { zone := "local-BrokerSpec", suffix := "missing-from-Etcd" }

/-- Modelled from the spec: `EtcdHeader` metadata copied from the
coordination store's response at the revision authoring a resolution. -/
structure EtcdHeader where
  clusterId : Nat
  memberId : Nat
  revision : Int
  raftTerm : Nat
  deriving DecidableEq, Repr

/-- Modelled from the spec: an `Assignment` for a journal — ordered member
`ProcessID`s plus a primary index (`-1` meaning no primary elected). -/
structure Assignment where
  members : List ProcessID
  primary : Int
  deriving DecidableEq, Repr

/-- Modelled from the spec: a `Route` — members, parallel endpoint strings,
and the primary index. -/
structure Route where
  members : List ProcessID
  primary : Int
  endpoints : List String
  deriving DecidableEq, Repr

/-- Modelled from the spec: the wire `Header` of a resolution. -/
structure Header where
  processId : ProcessID
  route : Route
  etcd : EtcdHeader
  deriving DecidableEq, Repr

/-- Modelled from the spec: the `Status` enum of resolution outcomes. -/
inductive Status where
  | OK
  | JOURNAL_NOT_FOUND
  | NO_JOURNAL_PRIMARY_BROKER
  | NOT_JOURNAL_PRIMARY_BROKER
  | NOT_JOURNAL_BROKER
  | INSUFFICIENT_JOURNAL_BROKERS
  deriving DecidableEq, Repr

/-- Association-list lookup used for the journal, broker and replica maps. -/
def alookup {α β : Type} [DecidableEq α] : List (α × β) → α → Option β
  | [], _ => none
  | (k, v) :: rest, a => if k = a then some v else alookup rest a

/-- Modelled from the spec: the KeySpace view — journal assignments, broker
specs (endpoints), and the store's response header (clusterId, revision). -/
structure KeySpace where
  journals : List (String × Assignment)
  brokers : List (ProcessID × String)
  header : EtcdHeader
  deriving DecidableEq, Repr

/-- Modelled from the spec: a local `Replica` handle; its cancellation scope
is rendered as a `ctxCancelled` flag (the Go context's `Done`). -/
structure Replica where
  ctxCancelled : Bool
  deriving DecidableEq, Repr

/-- Modelled from the spec: the resolver plus its replica registry — this
broker's identity, the `stopped` flag, the KeySpace snapshot, the journal →
replica map, and the per-journal invalidation channels (`true` = closed). -/
structure Resolver where
  localID : ProcessID
  stopped : Bool
  ks : KeySpace
  replicas : List (String × Replica)
  invalidateChs : List (String × Bool)
  deriving DecidableEq, Repr

/-- Modelled from the spec: `resolveArgs`. The caller's context is rendered
as a `ctxCancelled` flag observed at the freshness wait. -/
structure ResolveArgs where
  journal : String
  requirePrimary : Bool
  mayProxy : Bool
  minEtcdRevision : Int
  proxyHeader : Option Header
  ctxCancelled : Bool
  deriving DecidableEq, Repr

/-- Modelled from the spec: who authors a resolution's answer — this broker,
no one in particular (any peer acceptable), or a specific peer. -/
inductive AuthorRole where
  | localBroker
  | anyPeer
  | peer (p : ProcessID)
  deriving DecidableEq, Repr

/-- Map an `AuthorRole` to the `processId` of the assembled header, given
the name this broker uses for itself (its ID or the sentinel). -/
def AuthorRole.toProcessId : AuthorRole → ProcessID → ProcessID
  | .localBroker, localName => localName
  | .anyPeer, _ => ProcessID.zero
  | .peer p, _ => p

/-- Modelled from the spec: call-level failures of `resolve` — proxy-header
validation errors, context cancellation during the freshness wait, and the
`resolver-stopped` sentinel. -/
inductive ResolveErr where
  | processIdMismatch (got expected : ProcessID)
  | clusterIdMismatch (got expected : Nat)
  | contextCancelled
  | resolverStopped
  deriving DecidableEq, Repr

/-- Modelled from the spec: a `Resolution`. The invalidation channel lives
in the registry keyed by journal; a resolution references it through its
`journal` field. -/
structure Resolution where
  status : Status
  header : Header
  journal : String
  replica : Option Replica
  localID : ProcessID
  deriving DecidableEq, Repr

/-- Modelled from the spec: the route `\x7bprimary:-1, members:[], endpoints:[]\x7d`
attached to not-found and zero-member outcomes. -/
def emptyRoute : Route := { members := [], primary := -1, endpoints := [] }

/-- Modelled from the spec: `buildRoute` — copy members and primary, attach
each member's endpoint from its BrokerSpec, empty string when absent. -/
def buildRoute (asgn : Assignment) (brokers : List (ProcessID × String)) : Route :=
  { members := asgn.members,
    primary := asgn.primary,
    endpoints := asgn.members.map (fun m => (alookup brokers m).getD "") }

/-- The name this broker uses for itself in headers: its own ID while its
BrokerSpec is present in the KeySpace, the sentinel once that key is gone. -/
def localName (r : Resolver) : ProcessID :=
  if (alookup r.ks.brokers r.localID).isSome then r.localID else sentinelID

/-- The member at the assignment's primary index, when one is elected. -/
def primaryMember (asgn : Assignment) : Option ProcessID :=
  if 0 ≤ asgn.primary then asgn.members[asgn.primary.toNat]? else none

/-- Whether this broker sits at the assignment's primary index. -/
def localIsPrimary (r : Resolver) (asgn : Assignment) : Prop :=
  primaryMember asgn = some r.localID

instance (r : Resolver) (asgn : Assignment) : Decidable (localIsPrimary r asgn) := by
  unfold localIsPrimary; infer_instance

/-- Modelled from the spec: the outcome of the decision step — status,
route, authoring role, and whether the local replica is attached. -/
structure Decision where
  status : Status
  route : Route
  role : AuthorRole
  attach : Bool
  deriving DecidableEq, Repr

/-- Modelled from the spec: step 3 of `resolve` — look up the journal under
the read lock and select the outcome from the caller-preference table. -/
def decideOutcome (r : Resolver) (a : ResolveArgs) : Decision :=
  match alookup r.ks.journals a.journal with
  | none =>
      { status := .JOURNAL_NOT_FOUND, route := emptyRoute,
        role := .localBroker, attach := false }
  | some asgn =>
      if asgn.members = [] then
        { status := .INSUFFICIENT_JOURNAL_BROKERS, route := emptyRoute,
          role := .localBroker, attach := false }
      else
        let rt := buildRoute asgn r.ks.brokers
        if a.requirePrimary then
          if localIsPrimary r asgn then
            { status := .OK, route := rt, role := .localBroker, attach := true }
          else if a.mayProxy then
            match primaryMember asgn with
            | some p =>
                { status := .OK, route := rt, role := .peer p,
                  attach := r.localID ∈ asgn.members }
            | none =>
                { status := .NO_JOURNAL_PRIMARY_BROKER, route := rt,
                  role := .localBroker, attach := r.localID ∈ asgn.members }
          else if r.localID ∈ asgn.members then
            { status := .NOT_JOURNAL_PRIMARY_BROKER, route := rt,
              role := .localBroker, attach := true }
          else
            { status := .NOT_JOURNAL_BROKER, route := rt,
              role := .localBroker, attach := false }
        else
          if r.localID ∈ asgn.members then
            { status := .OK, route := rt, role := .localBroker, attach := true }
          else if a.mayProxy then
            { status := .OK, route := rt, role := .anyPeer, attach := false }
          else
            { status := .NOT_JOURNAL_BROKER, route := rt,
              role := .localBroker, attach := false }

/-- Modelled from the spec: steps 4–5 of `resolve` — header assembly, with
the proxy-header override on OK decisions and the sentinel substitution for
`processId = local` when this broker's own key is missing. -/
def assemble (r : Resolver) (a : ResolveArgs) (d : Decision) : Resolution :=
  let ownHeader : Header :=
    { processId := d.role.toProcessId (localName r),
      route := d.route, etcd := r.ks.header }
  let hdr : Header :=
    match a.proxyHeader with
    | some ph => if d.status = Status.OK then ph else ownHeader
    | none => ownHeader
  { status := d.status, header := hdr, journal := a.journal,
    replica := if d.attach then alookup r.replicas a.journal else none,
    localID := localName r }

/-- Modelled from the spec: steps 2–6 of `resolve` after proxy-header
validation. `minRev` already folds in a proxy header's revision. The
freshness wait is rendered by its two exits: cancellation while the snapshot
still lags `minRev` yields the context's error; otherwise the decision runs
on the (post-wait) snapshot. The stopped registry turns any decision that
requires a local replica into the `resolver-stopped` sentinel. -/
def resolveBody (r : Resolver) (a : ResolveArgs) (minRev : Int) : Except ResolveErr Resolution :=
  if r.ks.header.revision < minRev ∧ a.ctxCancelled = true then
    Except.error ResolveErr.contextCancelled
  else if r.stopped = true ∧ ((decideOutcome r a).attach = true ∨
      ((decideOutcome r a).status = Status.OK ∧ (decideOutcome r a).role = AuthorRole.localBroker)) then
    Except.error ResolveErr.resolverStopped
  else
    Except.ok (assemble r a (decideOutcome r a))

/-- Modelled from the spec: `resolve(args)`. Step 1 validates any supplied
proxy header before any blocking — its `processId` must equal this broker's
ID and its `etcd.clusterId` the KeySpace's clusterId — and feeds its
revision into the minimum revision (take the max). -/
def resolve (r : Resolver) (a : ResolveArgs) : Except ResolveErr Resolution :=
  match a.proxyHeader with
  | some ph =>
      if ph.processId = r.localID then
        if ph.etcd.clusterId = r.ks.header.clusterId then
          resolveBody r a (max a.minEtcdRevision ph.etcd.revision)
        else
          Except.error (ResolveErr.clusterIdMismatch ph.etcd.clusterId r.ks.header.clusterId)
      else
        Except.error (ResolveErr.processIdMismatch ph.processId r.localID)
  | none => resolveBody r a a.minEtcdRevision

/-- Modelled from the spec: `stopServingLocal` — set `stopped`, cancel every
replica's context, close every invalidation channel, all before returning. -/
def stopServingLocalReplicas (r : Resolver) : Resolver :=
  { r with
    stopped := true,
    replicas := r.replicas.map (fun jr => (jr.1, { ctxCancelled := true })),
    invalidateChs := r.invalidateChs.map (fun jc => (jc.1, true)) }

/-- Well-formedness of a `Route`: parallel arrays and an in-range primary. -/
def RouteWF (rt : Route) : Prop :=
  rt.endpoints.length = rt.members.length ∧
  -1 ≤ rt.primary ∧ rt.primary < rt.members.length

instance (rt : Route) : Decidable (RouteWF rt) := by
  unfold RouteWF; infer_instance

/-- Well-formedness of a KeySpace: every recorded assignment's primary index
lies in `[-1, len(members))`. -/
def KeySpaceWF (ks : KeySpace) : Prop :=
  ∀ p ∈ ks.journals, -1 ≤ p.2.primary ∧ p.2.primary < p.2.members.length

instance (ks : KeySpace) : Decidable (KeySpaceWF ks) := by
  unfold KeySpaceWF; infer_instance

/-- The member a route names as primary, when it names one. -/
def routeNamedPrimary (rt : Route) : Option ProcessID :=
  if 0 ≤ rt.primary then rt.members[rt.primary.toNat]? else none

instance {ε α : Type} [DecidableEq ε] [DecidableEq α] : DecidableEq (Except ε α)
  | .ok a, .ok b => if h : a = b then .isTrue (by rw [h]) else .isFalse (by simp [h])
  | .error a, .error b => if h : a = b then .isTrue (by rw [h]) else .isFalse (by simp [h])
  | .ok _, .error _ => .isFalse (by simp)
  | .error _, .ok _ => .isFalse (by simp)

/-- This broker's identity in the test fixtures. -/
def localIDEx : ProcessID := { zone := "local", suffix := "broker" }

/-- The peer broker's identity in the test fixtures. -/
def peerIDEx : ProcessID := { zone := "peer", suffix := "broker" }

/-- A concrete Etcd response header fixture. -/
def etcdEx : EtcdHeader := { clusterId := 12, memberId := 1, revision := 10, raftTerm := 2 }

/-- Assignment fixture: `[peer, local]` with the peer primary. -/
def asgnReplica : Assignment := { members := [peerIDEx, localIDEx], primary := 0 }

/-- Assignment fixture: `[peer]` only, peer primary. -/
def asgnPeerOnly : Assignment := { members := [peerIDEx], primary := 0 }

/-- Assignment fixture: `[local, peer]` with no elected primary. -/
def asgnNoPrimary : Assignment := { members := [localIDEx, peerIDEx], primary := -1 }

/-- A concrete KeySpace fixture holding the three assignments and both
broker specs. -/
def ksEx : KeySpace :=
  { journals := [("replica/journal", asgnReplica),
                 ("peer/only/journal", asgnPeerOnly),
                 ("no/primary/journal", asgnNoPrimary)],
    brokers := [(localIDEx, "http://local:8080"), (peerIDEx, "http://peer:8080")],
    header := etcdEx }

/-- A concrete running resolver over `ksEx` with live local replicas. -/
def rEx : Resolver :=
  { localID := localIDEx, stopped := false, ks := ksEx,
    replicas := [("replica/journal", { ctxCancelled := false }),
                 ("no/primary/journal", { ctxCancelled := false })],
    invalidateChs := [("replica/journal", false), ("no/primary/journal", false)] }

/-- Fixture `rEx` after its own BrokerSpec key was deleted from the store. -/
def rMissEx : Resolver :=
  { rEx with ks := { ksEx with brokers := [(peerIDEx, "http://peer:8080")] } }

/-- Proxy-header fixture naming a foreign broker. -/
def phForeign : Header :=
  { processId := { zone := "other", suffix := "id" }, route := emptyRoute, etcd := etcdEx }

/-- Proxy-header fixture naming this broker but a foreign cluster. -/
def phWrongCluster : Header :=
  { processId := localIDEx, route := emptyRoute,
    etcd := { etcdEx with clusterId := 8675309 } }

/-- Args fixture carrying `phForeign`. -/
def aForeign : ResolveArgs :=
  { journal := "a/journal", requirePrimary := false, mayProxy := false,
    minEtcdRevision := 0, proxyHeader := some phForeign, ctxCancelled := false }

/-- Args fixture carrying `phWrongCluster`. -/
def aWrongCluster : ResolveArgs :=
  { aForeign with proxyHeader := some phWrongCluster }

/-- Args fixture naming a far-future revision under a cancelled context. -/
def aCancelled : ResolveArgs :=
  { journal := "journal/three", requirePrimary := false, mayProxy := false,
    minEtcdRevision := 10000000010, proxyHeader := none, ctxCancelled := true }

/-- Args fixture: any-peer proxy resolve of the peer-only journal. -/
def aAnyPeer : ResolveArgs :=
  { journal := "peer/only/journal", requirePrimary := false, mayProxy := true,
    minEtcdRevision := 0, proxyHeader := none, ctxCancelled := false }

/-- Proxy-header fixture naming this broker at a future revision and a route
of its own choosing (deliberately different from the snapshot's route). -/
def phOverride : Header :=
  { processId := localIDEx,
    route := { members := [localIDEx], primary := 0, endpoints := ["http://local:8080"] },
    etcd := { etcdEx with revision := 11, memberId := 9 } }

/-- Args fixture carrying `phOverride` for the local replica journal. -/
def aOverride : ResolveArgs :=
  { journal := "replica/journal", requirePrimary := false, mayProxy := false,
    minEtcdRevision := 0, proxyHeader := some phOverride, ctxCancelled := false }

/-- The resolution `resolve rEx aOverride` produces: OK, with the proxy
header echoed back verbatim. -/
def resOverride : Resolution :=
  { status := Status.OK, header := phOverride, journal := "replica/journal",
    replica := some { ctxCancelled := false }, localID := localIDEx }

/-- Args fixture: non-proxy resolve of the peer-only journal. -/
def aPeerNoProxy : ResolveArgs :=
  { journal := "peer/only/journal", requirePrimary := false, mayProxy := false,
    minEtcdRevision := 0, proxyHeader := none, ctxCancelled := false }

/-- Args fixture: any-peer proxy resolve of the peer-only journal (used
against the resolver whose own key is missing). -/
def aAnyPeerMiss : ResolveArgs :=
  { aPeerNoProxy with mayProxy := true }

/-- The resolution `resolve rMissEx aPeerNoProxy` produces: the local-author
error outcome carrying the sentinel ProcessID. -/
def resMissEx : Resolution :=
  { status := Status.NOT_JOURNAL_BROKER,
    header := { processId := sentinelID,
                route := buildRoute asgnPeerOnly rMissEx.ks.brokers, etcd := etcdEx },
    journal := "peer/only/journal", replica := none, localID := sentinelID }

/-- Args fixture: plain resolve of the locally replicated journal. -/
def aLocalReplica : ResolveArgs :=
  { journal := "replica/journal", requirePrimary := false, mayProxy := false,
    minEtcdRevision := 0, proxyHeader := none, ctxCancelled := false }

/-- Args fixture: require-primary proxy resolve of the peer-only journal. -/
def aPrimaryProxy : ResolveArgs :=
  { journal := "peer/only/journal", requirePrimary := true, mayProxy := true,
    minEtcdRevision := 0, proxyHeader := none, ctxCancelled := false }

/-- The resolution `resolve rEx aAnyPeer` produces, written out. -/
def resRouteEx : Resolution :=
  { status := Status.OK,
    header := { processId := ProcessID.zero,
                route := buildRoute asgnPeerOnly rEx.ks.brokers, etcd := etcdEx },
    journal := "peer/only/journal", replica := none, localID := localIDEx }

end Broker

namespace Cloudstore

/-- Claim C1: for every `Endpoint` in which both the S3 discriminant
(`AWSAccessKeyID`) and the SFTP discriminant (`SFTPHostname`) are empty
strings, each of `Subfolder`, `URI` and `Properties` reaches its unguarded
panic branch (modelled as returning `none`) instead of a value. -/
theorem endpoint_helpers_panic_without_kind (ep : Endpoint) (keyPath : String)
    (hS3 : ep.AWSAccessKeyID = "") (hSFTP : ep.SFTPHostname = "") :
    ep.Subfolder = none ∧ ep.URI = none ∧ ep.Properties keyPath = none := by
  refine ⟨?_, ?_, ?_⟩ <;>
    simp [Endpoint.Subfolder, Endpoint.URI, Endpoint.Properties,
      Endpoint.IsS3, Endpoint.IsSFTP, hS3, hSFTP]

/-- Witness for C1 at a concrete kindless endpoint. -/
theorem endpoint_helpers_panic_without_kind_witness :
    epNoKind.Subfolder = none ∧ epNoKind.URI = none ∧
      epNoKind.Properties "kp" = none :=
  endpoint_helpers_panic_without_kind epNoKind "kp" (by decide) (by decide)

/-- Claim C9: for every `Endpoint` in which both `AWSAccessKeyID` and
`SFTPHostname` are non-empty, `Validate` takes the SFTP branch (it equals the
SFTP-fields check) while `Subfolder`, `URI` and `Properties` all take the S3
branch (rendering the S3 fields) — the classification precedence of
`Validate` is opposite to that of the rendering helpers, so an endpoint can
validate as SFTP yet be rendered as S3. -/
theorem validate_sftp_but_rendered_s3 (ep : Endpoint) (keyPath : String)
    (hS3 : ep.AWSAccessKeyID ≠ "") (hSFTP : ep.SFTPHostname ≠ "") :
    ep.Validate = ep.validateSFTPFields ∧
      ep.Subfolder = some ep.S3Subfolder ∧
      ep.URI = some ("s3://" ++ ep.S3Bucket ++ "/" ++ ep.S3Subfolder) ∧
      ep.Properties keyPath = some ep.s3Properties := by
  refine ⟨?_, ?_, ?_, ?_⟩ <;>
    simp [Endpoint.Validate, Endpoint.Subfolder, Endpoint.URI,
      Endpoint.Properties, Endpoint.IsS3, Endpoint.IsSFTP, hS3, hSFTP]

/-- Witness for C9 at a concrete endpoint carrying both discriminants: it
validates along the SFTP branch yet is rendered as S3. -/
theorem validate_sftp_but_rendered_s3_witness :
    epBothKinds.Validate = epBothKinds.validateSFTPFields ∧
      epBothKinds.Subfolder = some epBothKinds.S3Subfolder ∧
      epBothKinds.URI =
        some ("s3://" ++ epBothKinds.S3Bucket ++ "/" ++ epBothKinds.S3Subfolder) ∧
      epBothKinds.Properties "kp" = some epBothKinds.s3Properties :=
  validate_sftp_but_rendered_s3 epBothKinds "kp" (by decide) (by decide)

/-- Claim C10: for every `Endpoint` in which both discriminants are empty,
`Validate` returns `none` (nil error) — a successful `Validate` does not
guarantee a supported kind — even though `Subfolder`, `URI` and `Properties`
all panic (modelled `none`) on that same value. -/
theorem validate_accepts_kindless_endpoint (ep : Endpoint) (keyPath : String)
    (hS3 : ep.AWSAccessKeyID = "") (hSFTP : ep.SFTPHostname = "") :
    ep.Validate = none ∧ ep.Subfolder = none ∧ ep.URI = none ∧
      ep.Properties keyPath = none := by
  refine ⟨?_, ?_, ?_, ?_⟩ <;>
    simp [Endpoint.Validate, Endpoint.Subfolder, Endpoint.URI,
      Endpoint.Properties, Endpoint.IsS3, Endpoint.IsSFTP, hS3, hSFTP]

/-- Witness for C10 at a concrete kindless endpoint. -/
theorem validate_accepts_kindless_endpoint_witness :
    epNoKind.Validate = none ∧ epNoKind.Subfolder = none ∧
      epNoKind.URI = none ∧ epNoKind.Properties "kp" = none :=
  validate_accepts_kindless_endpoint epNoKind "kp" (by decide) (by decide)

end Cloudstore

namespace Broker

/-- A successful association-list lookup finds a recorded pair. -/
lemma alookup_mem {α β : Type} [DecidableEq α] {l : List (α × β)} {a : α} {b : β}
    (h : alookup l a = some b) : (a, b) ∈ l := by
  induction l with
  | nil => simp [alookup] at h
  | cons kv rest ih =>
      obtain ⟨k, v⟩ := kv
      by_cases hk : k = a
      · subst hk
        simp [alookup] at h
        simp [h]
      · simp [alookup, hk] at h
        exact List.mem_cons_of_mem _ (ih h)

/-- A successful `resolveBody` returns exactly the assembled decision. -/
lemma resolveBody_ok_eq_assemble {r : Resolver} {a : ResolveArgs} {minRev : Int}
    {res : Resolution} (h : resolveBody r a minRev = Except.ok res) :
    res = assemble r a (decideOutcome r a) := by
  unfold resolveBody at h
  split_ifs at h
  injection h with h
  exact h.symm

/-- Every successful `resolve` returns exactly the assembled form of the
decision taken on the snapshot. -/
lemma resolve_ok_eq_assemble {r : Resolver} {a : ResolveArgs} {res : Resolution}
    (h : resolve r a = Except.ok res) :
    res = assemble r a (decideOutcome r a) := by
  unfold resolve at h
  cases hph : a.proxyHeader with
  | none =>
      rw [hph] at h
      exact resolveBody_ok_eq_assemble h
  | some ph =>
      rw [hph] at h
      dsimp only at h
      split_ifs at h
      exact resolveBody_ok_eq_assemble h

/-- The status of a successful `resolve` is the status of its decision. -/
lemma resolve_ok_status {r : Resolver} {a : ResolveArgs} {res : Resolution}
    (h : resolve r a = Except.ok res) :
    res.status = (decideOutcome r a).status := by
  rw [resolve_ok_eq_assemble h]
  rfl

/-- A live context never trips the freshness-wait cancellation branch. -/
lemma not_cancelled_and {a : ResolveArgs} (hctx : a.ctxCancelled = false) (A : Prop) :
    ¬(A ∧ a.ctxCancelled = true) :=
  fun hcon => Bool.false_ne_true (hctx ▸ hcon.2)

/-- Shared shape lemma: with no proxy header and a live context, resolving a
found, non-empty assignment of which this broker is not a member, with
`mayProxy` and without `requirePrimary`, yields the any-peer OK resolution:
zero `processId`, the built route, and no replica. -/
lemma resolve_nonmember_any_peer {r : Resolver} {a : ResolveArgs} {asgn : Assignment}
    (hph : a.proxyHeader = none) (hctx : a.ctxCancelled = false)
    (hj : alookup r.ks.journals a.journal = some asgn)
    (hne : asgn.members ≠ []) (hnm : r.localID ∉ asgn.members)
    (hrp : a.requirePrimary = false) (hmp : a.mayProxy = true) :
    resolve r a = Except.ok
      { status := Status.OK,
        header := { processId := ProcessID.zero,
                    route := buildRoute asgn r.ks.brokers, etcd := r.ks.header },
        journal := a.journal, replica := none, localID := localName r } := by
  have hd : decideOutcome r a =
      { status := Status.OK, route := buildRoute asgn r.ks.brokers,
        role := AuthorRole.anyPeer, attach := false } := by
    unfold decideOutcome
    rw [hj]
    simp [hne, hrp, hmp, hnm]
  unfold resolve
  rw [hph]
  unfold resolveBody
  rw [if_neg (not_cancelled_and hctx _), hd]
  rw [if_neg (by simp)]
  simp [assemble, hph, AuthorRole.toProcessId]

/-- A named primary is a member of its assignment. -/
lemma primaryMember_mem {asgn : Assignment} {p : ProcessID}
    (h : primaryMember asgn = some p) : p ∈ asgn.members := by
  unfold primaryMember at h
  split_ifs at h
  exact List.getElem?_mem h

/-- When this broker is a member of a found, non-empty assignment, every
branch of the decision table attaches the local replica. -/
lemma decideOutcome_attach_of_member {r : Resolver} {a : ResolveArgs} {asgn : Assignment}
    (hj : alookup r.ks.journals a.journal = some asgn)
    (hne : asgn.members ≠ []) (hm : r.localID ∈ asgn.members) :
    (decideOutcome r a).attach = true := by
  unfold decideOutcome
  rw [hj]
  dsimp only
  rw [if_neg hne]
  cases hrp : a.requirePrimary with
  | false => simp [hm]
  | true =>
      by_cases hlp : localIsPrimary r asgn
      · simp [hlp]
      · cases hmp : a.mayProxy with
        | false => simp [hlp, hm]
        | true => cases hpm : primaryMember asgn <;> simp [hlp, hpm, hm]

/-- A non-member resolve with `requirePrimary` and `mayProxy` on an
assignment that names a primary decides for that primary peer, OK, without
attaching a replica. -/
lemma decideOutcome_proxy_to_primary {r : Resolver} {a : ResolveArgs} {asgn : Assignment}
    {p : ProcessID}
    (hj : alookup r.ks.journals a.journal = some asgn)
    (hne : asgn.members ≠ []) (hnm : r.localID ∉ asgn.members)
    (hrp : a.requirePrimary = true) (hmp : a.mayProxy = true)
    (hpm : primaryMember asgn = some p) :
    decideOutcome r a =
      { status := Status.OK, route := buildRoute asgn r.ks.brokers,
        role := AuthorRole.peer p, attach := false } := by
  have hlp : ¬ localIsPrimary r asgn := by
    unfold localIsPrimary
    rw [hpm]
    intro hcon
    injection hcon with hcon
    exact hnm (hcon ▸ primaryMember_mem hpm)
  unfold decideOutcome
  rw [hj]
  dsimp only
  rw [if_neg hne]
  simp [hrp, hlp, hmp, hpm, hnm]

/-- Claim C2: a resolve with `requirePrimary = false` and `mayProxy = true`
(no proxy header, live context) on a journal whose assignment is non-empty
and does not include this broker returns status OK with the zero `ProcessID`
in the header (no specific peer named) and no replica attached. -/
theorem resolve_any_peer_zero_process_id (r : Resolver) (a : ResolveArgs) (asgn : Assignment)
    (hph : a.proxyHeader = none) (hctx : a.ctxCancelled = false)
    (hj : alookup r.ks.journals a.journal = some asgn)
    (hne : asgn.members ≠ []) (hnm : r.localID ∉ asgn.members)
    (hrp : a.requirePrimary = false) (hmp : a.mayProxy = true) :
    resolve r a = Except.ok
      { status := Status.OK,
        header := { processId := ProcessID.zero,
                    route := buildRoute asgn r.ks.brokers, etcd := r.ks.header },
        journal := a.journal, replica := none, localID := localName r } :=
  resolve_nonmember_any_peer hph hctx hj hne hnm hrp hmp

/-- Witness for C2 at concrete fixtures. -/
theorem resolve_any_peer_zero_process_id_witness :
    resolve rEx aAnyPeer = Except.ok
      { status := Status.OK,
        header := { processId := ProcessID.zero,
                    route := buildRoute asgnPeerOnly rEx.ks.brokers, etcd := rEx.ks.header },
        journal := aAnyPeer.journal, replica := none, localID := localName rEx } :=
  resolve_any_peer_zero_process_id rEx aAnyPeer asgnPeerOnly rfl rfl
    (by decide) (by decide) (by decide) rfl rfl

/-- Claim C4: when a supplied proxy header passes validation and the decision
is status OK, the returned header equals the proxy header exactly, rather
than a header assembled from this broker's own snapshot. -/
theorem resolve_honors_valid_proxy_header (r : Resolver) (a : ResolveArgs) (ph : Header)
    (hph : a.proxyHeader = some ph) (hpid : ph.processId = r.localID)
    (hcl : ph.etcd.clusterId = r.ks.header.clusterId)
    (res : Resolution) (hok : resolve r a = Except.ok res)
    (hst : res.status = Status.OK) :
    res.header = ph := by
  have hstd : (decideOutcome r a).status = Status.OK := by
    rw [← resolve_ok_status hok]
    exact hst
  have hres := resolve_ok_eq_assemble hok
  subst hres
  simp [assemble, hph, hstd]

/-- Witness for C4 at concrete fixtures. -/
theorem resolve_honors_valid_proxy_header_witness :
    resOverride.header = phOverride :=
  resolve_honors_valid_proxy_header rEx aOverride phOverride rfl (by decide) (by decide)
    resOverride (by decide) (by decide)

/-- Claim C5: a supplied proxy header whose `processId` differs from this
broker's ID makes `resolve` fail with an error identifying the ProcessId
mismatch and produce no resolution, regardless of revision or context state
(so before any blocking); with a matching `processId` but a `clusterId`
differing from the KeySpace's, it likewise fails identifying the ClusterId
mismatch. -/
theorem resolve_proxy_header_mismatch_errors (r : Resolver) (a : ResolveArgs) (ph : Header)
    (hph : a.proxyHeader = some ph) :
    (ph.processId ≠ r.localID →
      resolve r a = Except.error (ResolveErr.processIdMismatch ph.processId r.localID)) ∧
    (ph.processId = r.localID → ph.etcd.clusterId ≠ r.ks.header.clusterId →
      resolve r a = Except.error (ResolveErr.clusterIdMismatch ph.etcd.clusterId r.ks.header.clusterId)) := by
  constructor
  · intro hne
    simp [resolve, hph, hne]
  · intro heq hne
    simp [resolve, hph, heq, hne]

/-- Witness for C5: both mismatches at concrete fixtures. -/
theorem resolve_proxy_header_mismatch_errors_witness :
    resolve rEx aForeign =
      Except.error (ResolveErr.processIdMismatch phForeign.processId rEx.localID) ∧
    resolve rEx aWrongCluster =
      Except.error (ResolveErr.clusterIdMismatch phWrongCluster.etcd.clusterId rEx.ks.header.clusterId) :=
  ⟨(resolve_proxy_header_mismatch_errors rEx aForeign phForeign rfl).1 (by decide),
   (resolve_proxy_header_mismatch_errors rEx aWrongCluster phWrongCluster rfl).2
     (by decide) (by decide)⟩

/-- Claim C6: a resolve whose `minEtcdRevision` exceeds the KeySpace's
current revision and whose context is cancelled before that revision is
observed returns the context's own error and no resolution. -/
theorem resolve_cancelled_during_freshness_wait (r : Resolver) (a : ResolveArgs)
    (hph : a.proxyHeader = none)
    (hrev : r.ks.header.revision < a.minEtcdRevision)
    (hctx : a.ctxCancelled = true) :
    resolve r a = Except.error ResolveErr.contextCancelled := by
  simp [resolve, hph, resolveBody, hrev, hctx]

/-- Witness for C6 at concrete fixtures. -/
theorem resolve_cancelled_during_freshness_wait_witness :
    resolve rEx aCancelled = Except.error ResolveErr.contextCancelled :=
  resolve_cancelled_during_freshness_wait rEx aCancelled rfl (by decide) rfl

/-- Claim C7: while this broker's own BrokerSpec key is absent from the
KeySpace (and no proxy header is supplied), any resolution whose decision
names this broker as author carries exactly the sentinel
`(zone: local-BrokerSpec, suffix: missing-from-Etcd)` as `processId`, while
an any-peer proxy resolution of a journal this broker is no member of still
succeeds with the zero `ProcessID`. -/
theorem resolve_sentinel_when_own_key_missing (r : Resolver) (a : ResolveArgs)
    (hmiss : alookup r.ks.brokers r.localID = none)
    (hph : a.proxyHeader = none) :
    (∀ res, resolve r a = Except.ok res →
        (decideOutcome r a).role = AuthorRole.localBroker →
        res.header.processId = sentinelID) ∧
    (∀ asgn, alookup r.ks.journals a.journal = some asgn →
        asgn.members ≠ [] → r.localID ∉ asgn.members →
        a.requirePrimary = false → a.mayProxy = true → a.ctxCancelled = false →
        resolve r a = Except.ok
          { status := Status.OK,
            header := { processId := ProcessID.zero,
                        route := buildRoute asgn r.ks.brokers, etcd := r.ks.header },
            journal := a.journal, replica := none, localID := localName r }) := by
  constructor
  · intro res hok hrole
    rw [resolve_ok_eq_assemble hok]
    simp [assemble, hph, hrole, AuthorRole.toProcessId, localName, hmiss]
  · intro asgn hj hne hnm hrp hmp hctx
    exact resolve_nonmember_any_peer hph hctx hj hne hnm hrp hmp

/-- Witness for C7 at concrete fixtures: the authored outcome names the
sentinel; the any-peer proxy outcome still names the zero ProcessID. -/
theorem resolve_sentinel_when_own_key_missing_witness :
    resMissEx.header.processId = sentinelID ∧
    resolve rMissEx aAnyPeerMiss = Except.ok
      { status := Status.OK,
        header := { processId := ProcessID.zero,
                    route := buildRoute asgnPeerOnly rMissEx.ks.brokers,
                    etcd := rMissEx.ks.header },
        journal := aAnyPeerMiss.journal, replica := none, localID := localName rMissEx } :=
  ⟨(resolve_sentinel_when_own_key_missing rMissEx aPeerNoProxy (by decide) rfl).1
      resMissEx (by decide) (by decide),
   (resolve_sentinel_when_own_key_missing rMissEx aAnyPeerMiss (by decide) rfl).2
      asgnPeerOnly (by decide) (by decide) (by decide) rfl rfl rfl⟩

/-- Claim C3: after `stopServingLocalReplicas` returns, every per-journal
invalidation channel in the registry is closed and every replica's context
is cancelled; every subsequent resolve of a journal this broker is assigned
to (which would attach the local replica) fails with the `resolver-stopped`
sentinel error; and a subsequent resolve that only proxies to a peer
(`requirePrimary`, `mayProxy`, non-member, primary named) still returns
status OK naming that peer. -/
theorem stop_serving_local_replicas_behaviour (r : Resolver) :
    (∀ jc ∈ (stopServingLocalReplicas r).invalidateChs, jc.2 = true) ∧
    (∀ jr ∈ (stopServingLocalReplicas r).replicas, jr.2.ctxCancelled = true) ∧
    (∀ a asgn, a.proxyHeader = none → a.ctxCancelled = false →
        alookup r.ks.journals a.journal = some asgn →
        asgn.members ≠ [] → r.localID ∈ asgn.members →
        resolve (stopServingLocalReplicas r) a = Except.error ResolveErr.resolverStopped) ∧
    (∀ a asgn p, a.proxyHeader = none → a.ctxCancelled = false →
        alookup r.ks.journals a.journal = some asgn →
        asgn.members ≠ [] → r.localID ∉ asgn.members →
        a.requirePrimary = true → a.mayProxy = true →
        primaryMember asgn = some p →
        ∃ res, resolve (stopServingLocalReplicas r) a = Except.ok res ∧
          res.status = Status.OK ∧ res.header.processId = p) := by
  refine ⟨?_, ?_, ?_, ?_⟩
  · intro jc hjc
    rcases List.mem_map.mp hjc with ⟨x, -, rfl⟩
    rfl
  · intro jr hjr
    rcases List.mem_map.mp hjr with ⟨x, -, rfl⟩
    rfl
  · intro a asgn hph hctx hj hne hm
    have hat : (decideOutcome (stopServingLocalReplicas r) a).attach = true :=
      decideOutcome_attach_of_member hj hne hm
    unfold resolve
    rw [hph]
    unfold resolveBody
    rw [if_neg (not_cancelled_and hctx _)]
    rw [if_pos ⟨rfl, Or.inl hat⟩]
  · intro a asgn p hph hctx hj hne hnm hrp hmp hpm
    have hd : decideOutcome (stopServingLocalReplicas r) a =
        { status := Status.OK,
          route := buildRoute asgn (stopServingLocalReplicas r).ks.brokers,
          role := AuthorRole.peer p, attach := false } :=
      decideOutcome_proxy_to_primary hj hne hnm hrp hmp hpm
    unfold resolve
    rw [hph]
    unfold resolveBody
    rw [if_neg (not_cancelled_and hctx _), hd]
    rw [if_neg (by simp)]
    exact ⟨_, rfl, by simp [assemble, hph],
      by simp [assemble, hph, AuthorRole.toProcessId]⟩

/-- Witness for C3 at concrete fixtures: a closed channel, the
resolver-stopped error for the local journal, and the surviving peer proxy
resolution. -/
theorem stop_serving_local_replicas_behaviour_witness :
    ("replica/journal", true).2 = true ∧
    resolve (stopServingLocalReplicas rEx) aLocalReplica =
      Except.error ResolveErr.resolverStopped ∧
    (∃ res, resolve (stopServingLocalReplicas rEx) aPrimaryProxy = Except.ok res ∧
      res.status = Status.OK ∧ res.header.processId = peerIDEx) :=
  ⟨(stop_serving_local_replicas_behaviour rEx).1 ("replica/journal", true) (by decide),
   (stop_serving_local_replicas_behaviour rEx).2.2.1 aLocalReplica asgnReplica
     rfl rfl (by decide) (by decide) (by decide),
   (stop_serving_local_replicas_behaviour rEx).2.2.2 aPrimaryProxy asgnPeerOnly peerIDEx
     rfl rfl (by decide) (by decide) (by decide) rfl rfl (by decide)⟩

/-- The empty route is well-formed. -/
lemma emptyRoute_wf : RouteWF emptyRoute := by decide

/-- Routes produced by `buildRoute` are well-formed whenever the
assignment's primary is in range. -/
lemma buildRoute_wf {asgn : Assignment} (brokers : List (ProcessID × String))
    (h1 : -1 ≤ asgn.primary) (h2 : asgn.primary < asgn.members.length) :
    RouteWF (buildRoute asgn brokers) := by
  refine ⟨?_, h1, h2⟩
  simp [buildRoute]

/-- In a well-formed route the primary index is `-1` exactly when the route
names no primary member. -/
lemma RouteWF_primary_iff {rt : Route} (h : RouteWF rt) :
    rt.primary = -1 ↔ routeNamedPrimary rt = none := by
  obtain ⟨-, h1, h2⟩ := h
  unfold routeNamedPrimary
  constructor
  · intro hp
    rw [hp]
    simp
  · intro hn
    by_contra hne
    have h0 : 0 ≤ rt.primary := by omega
    rw [if_pos h0] at hn
    have hlt : rt.primary.toNat < rt.members.length := by omega
    rw [List.getElem?_eq_getElem hlt] at hn
    exact Option.noConfusion hn

/-- Every decision's route is either the empty route or built from a
recorded assignment. -/
lemma decideOutcome_route_cases (r : Resolver) (a : ResolveArgs) :
    (decideOutcome r a).route = emptyRoute ∨
    ∃ asgn, alookup r.ks.journals a.journal = some asgn ∧
      (decideOutcome r a).route = buildRoute asgn r.ks.brokers := by
  unfold decideOutcome
  cases hj : alookup r.ks.journals a.journal with
  | none => left; rfl
  | some asgn =>
      dsimp only
      by_cases hne : asgn.members = []
      · left
        rw [if_pos hne]
      · right
        refine ⟨asgn, rfl, ?_⟩
        rw [if_neg hne]
        split_ifs <;> first
          | rfl
          | (cases hpm : primaryMember asgn <;> rfl)

/-- The not-found and insufficient-brokers outcomes carry the empty route. -/
lemma decideOutcome_error_route (r : Resolver) (a : ResolveArgs) :
    ((decideOutcome r a).status = Status.JOURNAL_NOT_FOUND ∨
     (decideOutcome r a).status = Status.INSUFFICIENT_JOURNAL_BROKERS) →
    (decideOutcome r a).route = emptyRoute := by
  unfold decideOutcome
  cases hj : alookup r.ks.journals a.journal with
  | none => intro _; rfl
  | some asgn =>
      dsimp only
      by_cases hne : asgn.members = []
      · rw [if_pos hne]
        intro _
        rfl
      · rw [if_neg hne]
        split_ifs <;>
          first
            | (rintro (hc | hc) <;> simp at hc)
            | (cases hpm : primaryMember asgn <;> rintro (hc | hc) <;> simp at hc)

/-- Claim C8: every resolution `resolve` produces has a route whose
endpoints list is as long as its members list and whose primary index lies
in `[-1, len(members))`, with `-1` exactly when no primary member is named;
the not-found and zero-member outcomes carry the empty route with primary
`-1`. Assumes the KeySpace's assignments are well-formed and any supplied
proxy header carries a well-formed route. -/
theorem resolve_route_invariants (r : Resolver) (a : ResolveArgs)
    (hks : KeySpaceWF r.ks)
    (hphwf : ∀ ph, a.proxyHeader = some ph → RouteWF ph.route) :
    ∀ res, resolve r a = Except.ok res →
      RouteWF res.header.route ∧
      (res.header.route.primary = -1 ↔ routeNamedPrimary res.header.route = none) ∧
      ((res.status = Status.JOURNAL_NOT_FOUND ∨
        res.status = Status.INSUFFICIENT_JOURNAL_BROKERS) →
        res.header.route = emptyRoute) := by
  intro res hok
  have hdwf : RouteWF (decideOutcome r a).route := by
    rcases decideOutcome_route_cases r a with hr | ⟨asgn, hj, hr⟩
    · rw [hr]
      exact emptyRoute_wf
    · rw [hr]
      have hb := hks _ (alookup_mem hj)
      exact buildRoute_wf r.ks.brokers hb.1 hb.2
  have hres := resolve_ok_eq_assemble hok
  subst hres
  have hroute : (assemble r a (decideOutcome r a)).header.route = (decideOutcome r a).route ∨
      ∃ ph, a.proxyHeader = some ph ∧ (decideOutcome r a).status = Status.OK ∧
        (assemble r a (decideOutcome r a)).header.route = ph.route := by
    unfold assemble
    cases hp : a.proxyHeader with
    | none => left; rfl
    | some ph =>
        by_cases hst : (decideOutcome r a).status = Status.OK
        · right
          refine ⟨ph, rfl, hst, ?_⟩
          dsimp only
          rw [if_pos hst]
        · left
          dsimp only
          rw [if_neg hst]
  have hstat : (assemble r a (decideOutcome r a)).status = (decideOutcome r a).status := rfl
  rcases hroute with hr | ⟨ph, hp, hst, hr⟩
  · refine ⟨?_, ?_, ?_⟩
    · rw [hr]
      exact hdwf
    · rw [hr]
      exact RouteWF_primary_iff hdwf
    · intro hstErr
      rw [hstat] at hstErr
      rw [hr]
      exact decideOutcome_error_route r a hstErr
  · refine ⟨?_, ?_, ?_⟩
    · rw [hr]
      exact hphwf ph hp
    · rw [hr]
      exact RouteWF_primary_iff (hphwf ph hp)
    · intro hstErr
      rw [hstat, hst] at hstErr
      rcases hstErr with hc | hc <;> simp at hc

/-- Witness for C8 at concrete fixtures. -/
theorem resolve_route_invariants_witness :
    RouteWF resRouteEx.header.route ∧
    (resRouteEx.header.route.primary = -1 ↔
      routeNamedPrimary resRouteEx.header.route = none) ∧
    ((resRouteEx.status = Status.JOURNAL_NOT_FOUND ∨
      resRouteEx.status = Status.INSUFFICIENT_JOURNAL_BROKERS) →
      resRouteEx.header.route = emptyRoute) :=
  resolve_route_invariants rEx aAnyPeer (by decide) (fun ph h => nomatch h)
    resRouteEx (by decide)

end Broker
